/-
Verification of the fragrance recommender core.

The repository holds two near-identical copies of the core
(`streamlit_app.py` and `streamlit_app.py.py`).  Their scoring and
selection functions are semantically identical (the copies differ only in
comments, whitespace and one catalog string), so the core is embedded once
below; the two catalog constants are embedded separately because the
display name of item "9" differs between the copies.

Numbers are embedded as exact rationals (`ℚ`); Python float arithmetic on
the decimal literals of this program is modelled exactly, and `round(x, 3)`
is modelled as rounding to the nearest multiple of 1/1000.
-/
import Mathlib

namespace FragranceRec

/-- `Fragrance` dataclass of the source (both copies agree on the schema). -/
structure Fragrance where
  id : String
  brand : String
  name : String
  weight : ℚ
  brightness : ℚ
  sillage : ℤ
  longevity : ℤ
  seasonality : List String
  occasions : List String
  archetypes : List String
  price : ℚ
deriving DecidableEq

/-- `full_name` method: `f"{self.brand} {self.name}"`. -/
def Fragrance.full_name (f : Fragrance) : String :=
  f.brand ++ " " ++ f.name

/-- `UserProfile` dataclass of the source. -/
structure UserProfile where
  climate : String
  occasion : String
  intensity : String
  longevity_goal : String
  weight_pref : ℚ
  brightness_pref : ℚ
  aspiration : List String
deriving DecidableEq

/-- `clamp01(x) = max(0.0, min(1.0, x))`. -/
def clamp01 (x : ℚ) : ℚ := max 0 (min 1 x)

/-- `closeness(x, y) = 1.0 - abs(x - y)`. -/
def closeness (x y : ℚ) : ℚ := 1 - |x - y|

/-- `{"skin": 1.0, "moderate": 3.0, "trail": 5.0}.get(intensity, 3.0)`. -/
def map_intensity_to_sillage (intensity : String) : ℚ :=
  if intensity = "skin" then 1
  else if intensity = "moderate" then 3
  else if intensity = "trail" then 5
  else 3

/-- `{"short": 2.0, "workday": 4.0, "allday": 5.0}.get(goal, 4.0)`. -/
def map_longevity_goal (goal : String) : ℚ :=
  if goal = "short" then 2
  else if goal = "workday" then 4
  else if goal = "allday" then 5
  else 4

/-- `climate_fit` of the source. -/
def climate_fit (user : UserProfile) (f : Fragrance) : ℚ :=
  if user.climate = "mixed" then
    (if 2 ≤ f.seasonality.length then 1 else 0.7)
  else if user.climate ∈ f.seasonality then 1 else 0.3

/-- `occasion_fit` of the source. -/
def occasion_fit (user : UserProfile) (f : Fragrance) : ℚ :=
  if user.occasion ∈ f.occasions then 1
  else if "everyday" ∈ f.occasions then 0.6 else 0.2

/-- `intensity_fit` of the source: `clamp01(1 - abs((f.sillage - target) / 4.0))`. -/
def intensity_fit (user : UserProfile) (f : Fragrance) : ℚ :=
  clamp01 (1 - |((f.sillage : ℚ) - map_intensity_to_sillage user.intensity) / 4|)

/-- `longevity_fit` of the source: `clamp01(1 - abs((f.longevity - target) / 4.0))`. -/
def longevity_fit (user : UserProfile) (f : Fragrance) : ℚ :=
  clamp01 (1 - |((f.longevity : ℚ) - map_longevity_goal user.longevity_goal) / 4|)

/-- `latent_sim` of the source: `0.5 * a + 0.5 * b` over the two closeness terms. -/
def latent_sim (user : UserProfile) (f : Fragrance) : ℚ :=
  0.5 * closeness user.weight_pref f.weight
    + 0.5 * closeness user.brightness_pref f.brightness

/-- `aspiration_fit` of the source: neutral `0.5` on an empty aspiration list,
otherwise `clamp01(len(set(aspiration) & set(archetypes)) / max(1, len(aspiration)))`.
Note the denominator is the plain list length, the numerator a set cardinality. -/
def aspiration_fit (user : UserProfile) (f : Fragrance) : ℚ :=
  if user.aspiration = [] then 0.5
  else clamp01 ((((user.aspiration.toFinset ∩ f.archetypes.toFinset).card : ℚ)) /
    ((max 1 user.aspiration.length : ℕ) : ℚ))

/-- `diversity_bonus` of the source: `0.05` for an empty picked list, else `0.05`
iff the candidate brings an archetype outside the union of picked archetypes. -/
def diversity_bonus (already : List Fragrance) (candidate : Fragrance) : ℚ :=
  if already = [] then 0.05
  else if (candidate.archetypes.toFinset \
      (already.flatMap (fun f => f.archetypes)).toFinset).Nonempty then 0.05
  else 0

/-- The `WEIGHTS` dict of the source, as a lookup function. -/
def WEIGHTS (key : String) : ℚ :=
  if key = "climate" then 0.20
  else if key = "occasion" then 0.15
  else if key = "intensity" then 0.15
  else if key = "longevity" then 0.15
  else if key = "latent" then 0.20
  else if key = "aspiration" then 0.10
  else if key = "diversity" then 0.05
  else 0

/-- The breakdown dict built by `score_user_to_fragrance`
(seven sub-scores plus the `"total"` entry). -/
structure ScoreParts where
  climate : ℚ
  occasion : ℚ
  intensity : ℚ
  longevity : ℚ
  latent : ℚ
  aspiration : ℚ
  diversity : ℚ
  total : ℚ
deriving DecidableEq

/-- `score_user_to_fragrance` of the source: the seven raw fit values and
`total = sum(WEIGHTS[k] * parts[k] for k in WEIGHTS)` in dict order. -/
def score_user_to_fragrance (user : UserProfile) (f : Fragrance)
    (picked : List Fragrance) : ScoreParts :=
  let c := climate_fit user f
  let o := occasion_fit user f
  let i := intensity_fit user f
  let l := longevity_fit user f
  let la := latent_sim user f
  let a := aspiration_fit user f
  let d := diversity_bonus picked f
  { climate := c, occasion := o, intensity := i, longevity := l,
    latent := la, aspiration := a, diversity := d,
    total := WEIGHTS "climate" * c + WEIGHTS "occasion" * o
      + WEIGHTS "intensity" * i + WEIGHTS "longevity" * l
      + WEIGHTS "latent" * la + WEIGHTS "aspiration" * a
      + WEIGHTS "diversity" * d }

/-- `round(x, 3)`: rounding to the nearest multiple of 1/1000
(Python rounds on binary floats; on this program's values the two agree up to
the float representation error, and no verified statement depends on the
direction of a tie). -/
def round3 (x : ℚ) : ℚ := ((round (1000 * x) : ℤ) : ℚ) / 1000

/-- One result entry of `recommend`:
`{id, name, score, parts (all rounded), archetypes}`. -/
structure RecEntry where
  id : String
  name : String
  score : ℚ
  parts : ScoreParts
  archetypes : List String
deriving DecidableEq

/-- `{k: round(v, 3) for k, v in best_parts.items()}`. -/
def roundParts (p : ScoreParts) : ScoreParts :=
  { climate := round3 p.climate, occasion := round3 p.occasion,
    intensity := round3 p.intensity, longevity := round3 p.longevity,
    latent := round3 p.latent, aspiration := round3 p.aspiration,
    diversity := round3 p.diversity, total := round3 p.total }

/-- The result-entry dict appended by `recommend` for a chosen item. -/
def mkEntry (best : Fragrance) (best_parts : ScoreParts) : RecEntry :=
  { id := best.id, name := best.full_name, score := round3 best_parts.total,
    parts := roundParts best_parts, archetypes := best.archetypes }

/-- The inner `for f in candidates` loop of `recommend`: running
`(best, best_parts)` accumulator plus `best_score`, updated when
`parts["total"] > best_score and f not in picked`. -/
def bestLoop (user : UserProfile) (picked : List Fragrance) :
    List Fragrance → Option (Fragrance × ScoreParts) → ℚ →
      Option (Fragrance × ScoreParts)
  | [], best, _ => best
  | f :: rest, best, best_score =>
    let parts := score_user_to_fragrance user f picked
    if parts.total > best_score ∧ f ∉ picked then
      bestLoop user picked rest (some (f, parts)) parts.total
    else
      bestLoop user picked rest best best_score

/-- The outer `for _ in range(k)` loop of `recommend`: each round runs the
inner loop from `(None, -1)`, stops on `None`, else records the entry,
appends the winner to `picked` and removes it from `candidates`. -/
def recommendAux (user : UserProfile) :
    ℕ → List Fragrance → List Fragrance → List RecEntry
  | 0, _, _ => []
  | n + 1, picked, candidates =>
    match bestLoop user picked candidates none (-1) with
    | none => []
    | some (best, best_parts) =>
      mkEntry best best_parts ::
        recommendAux user n (picked ++ [best]) (candidates.erase best)

/-- `recommend(user, k)` over an explicit catalog (the Python function reads
the module-level `CATALOG`; `candidates = CATALOG[:]`, `picked = []`).
`k` is a Python `int`; `range(k)` runs `max k 0` rounds. -/
def recommendOn (catalog : List Fragrance) (user : UserProfile) (k : ℤ) :
    List RecEntry :=
  recommendAux user k.toNat [] catalog

/-- Catalog item "1" (identical in both copies). -/
def item1 : Fragrance :=
  ⟨"1", "Chanel", "Bleu de Chanel", 0.45, 0.35, 3, 4, ["mild", "hot"],
    ["office", "everyday", "date"], ["refined", "approachable"], 110.0⟩

/-- Catalog item "2" (identical in both copies). -/
def item2 : Fragrance :=
  ⟨"2", "Dior", "Sauvage EDT", 0.50, 0.40, 4, 4, ["hot", "mild"],
    ["everyday", "date"], ["bold", "youthful"], 100.0⟩

/-- Catalog item "3" (identical in both copies). -/
def item3 : Fragrance :=
  ⟨"3", "Le Labo", "Santal 33", 0.70, 0.60, 4, 5, ["mild", "cool"],
    ["office", "date", "formal"], ["adventurous", "sensual"], 220.0⟩

/-- Catalog item "4" (identical in both copies). -/
def item4 : Fragrance :=
  ⟨"4", "MFK", "Baccarat Rouge 540", 0.80, 0.85, 5, 5, ["cool", "mild"],
    ["formal", "date"], ["bold", "mysterious", "elegant"], 300.0⟩

/-- Catalog item "5" (identical in both copies). -/
def item5 : Fragrance :=
  ⟨"5", "Chanel", "No.5 EDP", 0.65, 0.70, 3, 5, ["cool", "mild"],
    ["formal", "office"], ["elegant", "refined"], 200.0⟩

/-- Catalog item "6" (identical in both copies). -/
def item6 : Fragrance :=
  ⟨"6", "Tom Ford", "Black Orchid", 0.85, 0.80, 5, 5, ["cool"],
    ["date", "formal"], ["mysterious", "bold", "sensual"], 180.0⟩

/-- Catalog item "7" (identical in both copies). -/
def item7 : Fragrance :=
  ⟨"7", "Jo Malone", "Wood Sage & Sea Salt", 0.25, 0.15, 2, 3, ["hot", "mild"],
    ["office", "everyday"], ["approachable", "refined"], 120.0⟩

/-- Catalog item "8" (identical in both copies). -/
def item8 : Fragrance :=
  ⟨"8", "Prada", "Infusion d\x27Iris", 0.35, 0.30, 2, 4, ["mild", "cool"],
    ["office", "formal"], ["elegant", "refined"], 150.0⟩

/-- Catalog item "9" as spelled in `streamlit_app.py` (the display name
carries the mojibake byte sequence "GiÃ²"). -/
def item9 : Fragrance :=
  ⟨"9", "Giorgio Armani", "Acqua di GiÃ² Profondo", 0.40, 0.25, 3, 4,
    ["hot", "mild"], ["everyday", "office"], ["approachable", "youthful"], 120.0⟩

/-- Catalog item "9" as spelled in `streamlit_app.py.py` (plain "ò"). -/
def item9d : Fragrance :=
  ⟨"9", "Giorgio Armani", "Acqua di Giò Profondo", 0.40, 0.25, 3, 4,
    ["hot", "mild"], ["everyday", "office"], ["approachable", "youthful"], 120.0⟩

/-- The `CATALOG` constant of `streamlit_app.py`. -/
def CATALOG : List Fragrance :=
  [item1, item2, item3, item4, item5, item6, item7, item8, item9]

/-- The `CATALOG` constant of `streamlit_app.py.py` (identical except for the
display name of item "9"). -/
def CATALOG_demo : List Fragrance :=
  [item1, item2, item3, item4, item5, item6, item7, item8, item9d]

/-- `recommend` of `streamlit_app.py` (global `CATALOG` of that file). -/
def recommend (user : UserProfile) (k : ℤ := 3) : List RecEntry :=
  recommendOn CATALOG user k

/-- `recommend` of `streamlit_app.py.py` (global `CATALOG` of that file). -/
def recommend_demo (user : UserProfile) (k : ℤ := 3) : List RecEntry :=
  recommendOn CATALOG_demo user k

/-- The mood conditional expression inside `explain_pick`. -/
def explain_mood (user : UserProfile) : String :=
  if user.intensity = "skin" then "skin-close"
  else if user.intensity = "moderate" then "moderately projecting"
  else "leaves a trail"

/-- `explain_pick` of `streamlit_app.py` (the `r` argument is accepted but
unused by the produced sentence). -/
def explain_pick (user : UserProfile) (_r : RecEntry) : String :=
  let asp := if user.aspiration = [] then "your style"
    else String.intercalate ", " user.aspiration
  "Because you chose **" ++ user.occasion ++ "** in a **" ++ user.climate
    ++ "** climate and prefer **" ++ explain_mood user ++ "** with **"
    ++ user.longevity_goal ++ "** longevity, "
    ++ "we prioritized weight/brightness close to your taste and scents mapped to **"
    ++ asp ++ "**."

/-- Well-formed user profile per the data model
(`weight_pref, brightness_pref ∈ [0,1]`). -/
def ValidUser (u : UserProfile) : Prop :=
  0 ≤ u.weight_pref ∧ u.weight_pref ≤ 1 ∧
    0 ≤ u.brightness_pref ∧ u.brightness_pref ≤ 1

/-- Catalog item invariants per the data model
(`weight, brightness ∈ [0,1]`, `sillage, longevity ∈ 1..5`). -/
def ValidFragrance (f : Fragrance) : Prop :=
  (0 ≤ f.weight ∧ f.weight ≤ 1) ∧ (0 ≤ f.brightness ∧ f.brightness ≤ 1) ∧
    (1 ≤ f.sillage ∧ f.sillage ≤ 5) ∧ (1 ≤ f.longevity ∧ f.longevity ≤ 5)

/-- Erase the display name of an item (all scoring-relevant fields kept). -/
def stripName (f : Fragrance) : Fragrance := { f with name := "" }

/-- Erase the display name of a result entry. -/
def stripEntryName (e : RecEntry) : RecEntry := { e with name := "" }

/-- The demo profile of the `__main__` block of `streamlit_app.py.py`. -/
def demoUser : UserProfile :=
  ⟨"mild", "office", "skin", "workday", 0.40, 0.35, ["elegant", "mysterious"]⟩

/-! ### Basic lemmas about the scoring components -/

lemma round3_mono {x y : ℚ} (h : x ≤ y) : round3 x ≤ round3 y := by
  unfold round3
  have h1 : round (1000 * x) ≤ round (1000 * y) := by
    rw [round_eq, round_eq]
    exact Int.floor_le_floor (by linarith)
  have h2 : ((round (1000 * x) : ℤ) : ℚ) ≤ ((round (1000 * y) : ℤ) : ℚ) := by
    exact_mod_cast h1
  linarith

lemma clamp01_nonneg (x : ℚ) : 0 ≤ clamp01 x := le_max_left 0 _

lemma clamp01_le_one (x : ℚ) : clamp01 x ≤ 1 :=
  max_le (by norm_num) (min_le_left 1 x)

lemma climate_fit_nonneg (u : UserProfile) (f : Fragrance) : 0 ≤ climate_fit u f := by
  unfold climate_fit; split_ifs <;> norm_num

lemma climate_fit_le_one (u : UserProfile) (f : Fragrance) : climate_fit u f ≤ 1 := by
  unfold climate_fit; split_ifs <;> norm_num

lemma occasion_fit_nonneg (u : UserProfile) (f : Fragrance) : 0 ≤ occasion_fit u f := by
  unfold occasion_fit; split_ifs <;> norm_num

lemma occasion_fit_le_one (u : UserProfile) (f : Fragrance) : occasion_fit u f ≤ 1 := by
  unfold occasion_fit; split_ifs <;> norm_num

lemma closeness_nonneg {x y : ℚ} (hx : 0 ≤ x ∧ x ≤ 1) (hy : 0 ≤ y ∧ y ≤ 1) :
    0 ≤ closeness x y := by
  unfold closeness
  have : |x - y| ≤ 1 := abs_le.mpr ⟨by linarith [hx.1, hy.2], by linarith [hx.2, hy.1]⟩
  linarith

lemma closeness_le_one (x y : ℚ) : closeness x y ≤ 1 := by
  unfold closeness
  have := abs_nonneg (x - y)
  linarith

lemma latent_sim_nonneg {u : UserProfile} {f : Fragrance}
    (hu : ValidUser u) (hf : ValidFragrance f) : 0 ≤ latent_sim u f := by
  unfold latent_sim
  have h1 := closeness_nonneg ⟨hu.1, hu.2.1⟩ ⟨hf.1.1, hf.1.2⟩
  have h2 := closeness_nonneg ⟨hu.2.2.1, hu.2.2.2⟩ ⟨hf.2.1.1, hf.2.1.2⟩
  linarith

lemma latent_sim_le_one (u : UserProfile) (f : Fragrance) : latent_sim u f ≤ 1 := by
  unfold latent_sim
  have h1 := closeness_le_one u.weight_pref f.weight
  have h2 := closeness_le_one u.brightness_pref f.brightness
  linarith

lemma aspiration_fit_nonneg (u : UserProfile) (f : Fragrance) : 0 ≤ aspiration_fit u f := by
  unfold aspiration_fit
  split_ifs
  · norm_num
  · exact clamp01_nonneg _

lemma aspiration_fit_le_one (u : UserProfile) (f : Fragrance) : aspiration_fit u f ≤ 1 := by
  unfold aspiration_fit
  split_ifs
  · norm_num
  · exact clamp01_le_one _

lemma diversity_bonus_nonneg (p : List Fragrance) (f : Fragrance) :
    0 ≤ diversity_bonus p f := by
  unfold diversity_bonus; split_ifs <;> norm_num

lemma diversity_bonus_le_one (p : List Fragrance) (f : Fragrance) :
    diversity_bonus p f ≤ 1 := by
  unfold diversity_bonus; split_ifs <;> norm_num

/-- The numerator of `aspiration_fit` restated through list intersection and
deduplication: `len(set(a) & set(b))` is the number of distinct common elements. -/
lemma aspiration_fit_eq (u : UserProfile) (f : Fragrance) :
    aspiration_fit u f =
      if u.aspiration = [] then 0.5
      else clamp01 ((((u.aspiration ∩ f.archetypes).dedup.length : ℕ) : ℚ) /
        ((max 1 u.aspiration.length : ℕ) : ℚ)) := by
  unfold aspiration_fit
  rw [← List.toFinset_inter, List.card_toFinset]

/-- Once something is picked, the diversity bonus of a candidate can only
shrink or stay: the union of picked archetypes grows. -/
lemma diversity_bonus_append (p : List Fragrance) (b c : Fragrance) :
    diversity_bonus (p ++ [b]) c ≤ diversity_bonus p c := by
  unfold diversity_bonus
  rcases eq_or_ne p [] with hp | hp
  · subst hp
    simp only [List.nil_append, List.cons_ne_self]
    split_ifs <;> norm_num
  · have hp2 : p ++ [b] ≠ [] := by simp
    rw [if_neg hp2, if_neg hp]
    by_cases h1 : (c.archetypes.toFinset \
        ((p ++ [b]).flatMap (fun f => f.archetypes)).toFinset).Nonempty
    · rw [if_pos h1]
      have h2 : (c.archetypes.toFinset \
          (p.flatMap (fun f => f.archetypes)).toFinset).Nonempty := by
        obtain ⟨x, hx⟩ := h1
        rw [Finset.mem_sdiff] at hx
        refine ⟨x, Finset.mem_sdiff.mpr ⟨hx.1, fun hmem => hx.2 ?_⟩⟩
        rw [List.mem_toFinset] at hmem ⊢
        rw [List.flatMap_append]
        exact List.mem_append_left _ hmem
      rw [if_pos h2]
    · rw [if_neg h1]
      split_ifs <;> norm_num

/-- `total` is the documented fixed-weight sum of the seven sub-scores. -/
lemma score_total (u : UserProfile) (f : Fragrance) (p : List Fragrance) :
    (score_user_to_fragrance u f p).total =
      0.20 * climate_fit u f + 0.15 * occasion_fit u f
        + 0.15 * intensity_fit u f + 0.15 * longevity_fit u f
        + 0.20 * latent_sim u f + 0.10 * aspiration_fit u f
        + 0.05 * diversity_bonus p f := by
  simp [score_user_to_fragrance, WEIGHTS]

lemma score_climate (u : UserProfile) (f : Fragrance) (p : List Fragrance) :
    (score_user_to_fragrance u f p).climate = climate_fit u f := rfl

lemma score_occasion (u : UserProfile) (f : Fragrance) (p : List Fragrance) :
    (score_user_to_fragrance u f p).occasion = occasion_fit u f := rfl

lemma score_intensity (u : UserProfile) (f : Fragrance) (p : List Fragrance) :
    (score_user_to_fragrance u f p).intensity = intensity_fit u f := rfl

lemma score_longevity (u : UserProfile) (f : Fragrance) (p : List Fragrance) :
    (score_user_to_fragrance u f p).longevity = longevity_fit u f := rfl

lemma score_latent (u : UserProfile) (f : Fragrance) (p : List Fragrance) :
    (score_user_to_fragrance u f p).latent = latent_sim u f := rfl

lemma score_aspiration (u : UserProfile) (f : Fragrance) (p : List Fragrance) :
    (score_user_to_fragrance u f p).aspiration = aspiration_fit u f := rfl

lemma score_diversity (u : UserProfile) (f : Fragrance) (p : List Fragrance) :
    (score_user_to_fragrance u f p).diversity = diversity_bonus p f := rfl

/-- Totals only decrease (through the diversity term) as the picked list grows. -/
lemma total_append_le (u : UserProfile) (f : Fragrance) (p : List Fragrance)
    (b : Fragrance) :
    (score_user_to_fragrance u f (p ++ [b])).total ≤
      (score_user_to_fragrance u f p).total := by
  rw [score_total, score_total]
  have := diversity_bonus_append p b f
  linarith

/-- For a well-formed user and item the total is nonnegative (in particular
above the `-1` sentinel used by the selection loop). -/
lemma total_nonneg {u : UserProfile} {f : Fragrance}
    (hu : ValidUser u) (hf : ValidFragrance f) (p : List Fragrance) :
    0 ≤ (score_user_to_fragrance u f p).total := by
  rw [score_total]
  have h1 := climate_fit_nonneg u f
  have h2 := occasion_fit_nonneg u f
  have h3 := clamp01_nonneg (1 - |((f.sillage : ℚ) - map_intensity_to_sillage u.intensity) / 4|)
  have h4 := clamp01_nonneg (1 - |((f.longevity : ℚ) - map_longevity_goal u.longevity_goal) / 4|)
  have h5 := latent_sim_nonneg hu hf
  have h6 := aspiration_fit_nonneg u f
  have h7 := diversity_bonus_nonneg p f
  unfold intensity_fit longevity_fit
  linarith

/-! ### Characterization of the inner selection loop -/

/-- Running the loop from an accumulator `(b₀, score b₀)` with matching best
score: the result is the first strict improvement chain's last element —
either the accumulator survives (nothing beats it) or a candidate wins, with
everything before it strictly below and everything after it at most its total. -/
lemma bestLoop_go_some (u : UserProfile) (p : List Fragrance) (cs : List Fragrance) :
    ∀ b₀ : Fragrance, ∃ c,
      bestLoop u p cs (some (b₀, score_user_to_fragrance u b₀ p))
          (score_user_to_fragrance u b₀ p).total =
        some (c, score_user_to_fragrance u c p) ∧
      ((c = b₀ ∧ ∀ f ∈ cs, f ∉ p →
          (score_user_to_fragrance u f p).total ≤
            (score_user_to_fragrance u b₀ p).total) ∨
       (c ∉ p ∧
        (score_user_to_fragrance u b₀ p).total <
          (score_user_to_fragrance u c p).total ∧
        ∃ pre post, cs = pre ++ c :: post ∧
          (∀ f ∈ pre, f ∉ p →
            (score_user_to_fragrance u f p).total <
              (score_user_to_fragrance u c p).total) ∧
          (∀ f ∈ post, f ∉ p →
            (score_user_to_fragrance u f p).total ≤
              (score_user_to_fragrance u c p).total))) := by
  induction cs with
  | nil =>
    intro b₀
    exact ⟨b₀, rfl, Or.inl ⟨rfl, by simp⟩⟩
  | cons f rest ih =>
    intro b₀
    by_cases hg : (score_user_to_fragrance u f p).total >
        (score_user_to_fragrance u b₀ p).total ∧ f ∉ p
    · obtain ⟨c, hc, hcase⟩ := ih f
      refine ⟨c, ?_, ?_⟩
      · simp only [bestLoop]
        rw [if_pos hg]
        exact hc
      · right
        rcases hcase with ⟨rfl, hall⟩ | ⟨hcp, hlt, pre, post, rfl, hpre, hpost⟩
        · exact ⟨hg.2, hg.1, [], rest, rfl, by simp, hall⟩
        · refine ⟨hcp, lt_trans hg.1 hlt, f :: pre, post, rfl, ?_, hpost⟩
          intro g hgmem hgp
          rcases List.mem_cons.mp hgmem with rfl | hgmem
          · exact hlt
          · exact hpre g hgmem hgp
    · obtain ⟨c, hc, hcase⟩ := ih b₀
      have hstep : bestLoop u p (f :: rest)
          (some (b₀, score_user_to_fragrance u b₀ p))
          (score_user_to_fragrance u b₀ p).total =
          bestLoop u p rest (some (b₀, score_user_to_fragrance u b₀ p))
            (score_user_to_fragrance u b₀ p).total := by
        simp only [bestLoop]
        rw [if_neg hg]
      refine ⟨c, hstep ▸ hc, ?_⟩
      have hf : f ∉ p → (score_user_to_fragrance u f p).total ≤
          (score_user_to_fragrance u b₀ p).total := by
        intro hfp
        by_contra hlt
        exact hg ⟨lt_of_not_le hlt, hfp⟩
      rcases hcase with ⟨rfl, hall⟩ | ⟨hcp, hlt, pre, post, rfl, hpre, hpost⟩
      · left
        refine ⟨rfl, ?_⟩
        intro g hgmem hgp
        rcases List.mem_cons.mp hgmem with rfl | hgmem
        · exact hf hgp
        · exact hall g hgmem hgp
      · right
        refine ⟨hcp, hlt, f :: pre, post, rfl, ?_, hpost⟩
        intro g hgmem hgp
        rcases List.mem_cons.mp hgmem with rfl | hgmem
        · exact lt_of_le_of_lt (hf hgp) hlt
        · exact hpre g hgmem hgp

/-- Full characterization of one round of selection, from the initial
`(None, -1)` state. -/
lemma bestLoop_start (u : UserProfile) (p : List Fragrance) (cs : List Fragrance) :
    (bestLoop u p cs none (-1) = none ∧ ∀ f ∈ cs, f ∉ p →
      (score_user_to_fragrance u f p).total ≤ -1) ∨
    (∃ c, bestLoop u p cs none (-1) = some (c, score_user_to_fragrance u c p) ∧
      c ∉ p ∧ -1 < (score_user_to_fragrance u c p).total ∧
      ∃ pre post, cs = pre ++ c :: post ∧
        (∀ f ∈ pre, f ∉ p →
          (score_user_to_fragrance u f p).total <
            (score_user_to_fragrance u c p).total) ∧
        (∀ f ∈ post, f ∉ p →
          (score_user_to_fragrance u f p).total ≤
            (score_user_to_fragrance u c p).total)) := by
  induction cs with
  | nil =>
    left
    exact ⟨rfl, by simp⟩
  | cons f rest ih =>
    by_cases hg : (score_user_to_fragrance u f p).total > (-1 : ℚ) ∧ f ∉ p
    · right
      have hstep : bestLoop u p (f :: rest) none (-1) =
          bestLoop u p rest (some (f, score_user_to_fragrance u f p))
            (score_user_to_fragrance u f p).total := by
        simp only [bestLoop]
        rw [if_pos hg]
      obtain ⟨c, hc, hcase⟩ := bestLoop_go_some u p rest f
      rcases hcase with ⟨rfl, hall⟩ | ⟨hcp, hlt, pre, post, rfl, hpre, hpost⟩
      · exact ⟨c, hstep ▸ hc, hg.2, hg.1, [], rest, rfl, by simp, hall⟩
      · refine ⟨c, hstep ▸ hc, hcp, lt_trans hg.1 hlt, f :: pre, post, rfl, ?_, hpost⟩
        intro g hgmem hgp
        rcases List.mem_cons.mp hgmem with rfl | hgmem
        · exact hlt
        · exact hpre g hgmem hgp
    · have hstep : bestLoop u p (f :: rest) none (-1) =
          bestLoop u p rest none (-1) := by
        simp only [bestLoop]
        rw [if_neg hg]
      have hf : f ∉ p → (score_user_to_fragrance u f p).total ≤ -1 := by
        intro hfp
        by_contra hlt
        exact hg ⟨lt_of_not_le hlt, hfp⟩
      rcases ih with ⟨hnone, hall⟩ | ⟨c, hc, hcp, hgt, pre, post, rfl, hpre, hpost⟩
      · left
        refine ⟨hstep ▸ hnone, ?_⟩
        intro g hgmem hgp
        rcases List.mem_cons.mp hgmem with rfl | hgmem
        · exact hf hgp
        · exact hall g hgmem hgp
      · right
        refine ⟨c, hstep ▸ hc, hcp, hgt, f :: pre, post, rfl, ?_, hpost⟩
        intro g hgmem hgp
        rcases List.mem_cons.mp hgmem with rfl | hgmem
        · exact lt_of_le_of_lt (hf hgp) hgt
        · exact hpre g hgmem hgp

/-- Soundness of one selection round: the winner is an unpicked candidate
with maximal total, the first such in candidate order. -/
lemma bestLoop_some_spec {u : UserProfile} {p cs : List Fragrance}
    {b : Fragrance} {parts : ScoreParts}
    (h : bestLoop u p cs none (-1) = some (b, parts)) :
    parts = score_user_to_fragrance u b p ∧ b ∈ cs ∧ b ∉ p ∧
    -1 < parts.total ∧
    (∀ f ∈ cs, f ∉ p → (score_user_to_fragrance u f p).total ≤ parts.total) ∧
    ∃ pre post, cs = pre ++ b :: post ∧
      (∀ f ∈ pre, f ∉ p → (score_user_to_fragrance u f p).total < parts.total) ∧
      (∀ f ∈ post, f ∉ p → (score_user_to_fragrance u f p).total ≤ parts.total) := by
  rcases bestLoop_start u p cs with ⟨hnone, -⟩ | ⟨c, hc, hcp, hgt, pre, post, heq, hpre, hpost⟩
  · rw [h] at hnone
    exact absurd hnone (by simp)
  · rw [h] at hc
    have h' := Option.some.inj hc
    have hb : b = c := congrArg Prod.fst h'
    have hparts : parts = score_user_to_fragrance u c p := congrArg Prod.snd h'
    subst hb
    rw [← hparts] at hgt hpre hpost
    refine ⟨hparts, ?_, hcp, hgt, ?_, pre, post, heq, hpre, hpost⟩
    · rw [heq]
      simp
    · intro f hf hfp
      rw [heq] at hf
      rcases List.mem_append.mp hf with hf | hf
      · exact le_of_lt (hpre f hf hfp)
      · rcases List.mem_cons.mp hf with rfl | hf
        · exact le_of_eq (by rw [hparts])
        · exact hpost f hf hfp

/-- If one round selects nothing, every unpicked candidate's total is at most
the `-1` sentinel. -/
lemma bestLoop_none_spec {u : UserProfile} {p cs : List Fragrance}
    (h : bestLoop u p cs none (-1) = none) :
    ∀ f ∈ cs, f ∉ p → (score_user_to_fragrance u f p).total ≤ -1 := by
  rcases bestLoop_start u p cs with ⟨-, hall⟩ | ⟨c, hc, -⟩
  · exact hall
  · rw [h] at hc
    exact absurd hc (by simp)

/-- A surviving accumulator: nothing in the rest of the list strictly beats it. -/
lemma bestLoop_keep (u : UserProfile) (p : List Fragrance) (post : List Fragrance) :
    ∀ b₀ : Fragrance,
      (∀ f ∈ post, f ∉ p → (score_user_to_fragrance u f p).total ≤
        (score_user_to_fragrance u b₀ p).total) →
      bestLoop u p post (some (b₀, score_user_to_fragrance u b₀ p))
          (score_user_to_fragrance u b₀ p).total =
        some (b₀, score_user_to_fragrance u b₀ p) := by
  induction post with
  | nil =>
    intro b₀ _
    rfl
  | cons f rest ih =>
    intro b₀ hall
    have hng : ¬((score_user_to_fragrance u f p).total >
        (score_user_to_fragrance u b₀ p).total ∧ f ∉ p) := by
      rintro ⟨hgt, hfp⟩
      exact absurd (hall f (by simp) hfp) (not_le.mpr hgt)
    simp only [bestLoop]
    rw [if_neg hng]
    exact ih b₀ (fun g hg hgp => hall g (by simp [hg]) hgp)

/-- Completeness of one selection round: an unpicked candidate that strictly
beats everything before it and at least ties everything after it is selected. -/
lemma bestLoop_complete (u : UserProfile) (p : List Fragrance) (b : Fragrance)
    (post : List Fragrance) (hb : b ∉ p)
    (hpost : ∀ f ∈ post, f ∉ p → (score_user_to_fragrance u f p).total ≤
      (score_user_to_fragrance u b p).total) :
    ∀ (pre : List Fragrance) (acc : Option (Fragrance × ScoreParts)) (s : ℚ),
      s < (score_user_to_fragrance u b p).total →
      (∀ f ∈ pre, f ∉ p → (score_user_to_fragrance u f p).total <
        (score_user_to_fragrance u b p).total) →
      bestLoop u p (pre ++ b :: post) acc s =
        some (b, score_user_to_fragrance u b p) := by
  intro pre
  induction pre with
  | nil =>
    intro acc s hs _
    simp only [List.nil_append, bestLoop]
    rw [if_pos ⟨hs, hb⟩]
    exact bestLoop_keep u p post b hpost
  | cons f pre ih =>
    intro acc s hs hpre
    by_cases hg : (score_user_to_fragrance u f p).total > s ∧ f ∉ p
    · simp only [List.cons_append, bestLoop]
      rw [if_pos hg]
      exact ih _ _ (hpre f (by simp) hg.2) (fun g hg' hgp => hpre g (by simp [hg']) hgp)
    · simp only [List.cons_append, bestLoop]
      rw [if_neg hg]
      exact ih _ _ hs (fun g hg' hgp => hpre g (by simp [hg']) hgp)

/-! ### The outer selection loop -/

lemma mkEntry_id (b : Fragrance) (parts : ScoreParts) : (mkEntry b parts).id = b.id := rfl

lemma mkEntry_score (b : Fragrance) (parts : ScoreParts) :
    (mkEntry b parts).score = round3 parts.total := rfl

lemma recommendAux_succ_none {u : UserProfile} {n : ℕ} {p cs : List Fragrance}
    (h : bestLoop u p cs none (-1) = none) :
    recommendAux u (n + 1) p cs = [] := by
  simp [recommendAux, h]

lemma recommendAux_succ_some {u : UserProfile} {n : ℕ} {p cs : List Fragrance}
    {b : Fragrance} {parts : ScoreParts}
    (h : bestLoop u p cs none (-1) = some (b, parts)) :
    recommendAux u (n + 1) p cs =
      mkEntry b parts :: recommendAux u n (p ++ [b]) (cs.erase b) := by
  simp [recommendAux, h]

lemma recommendAux_length_le (u : UserProfile) :
    ∀ (n : ℕ) (p cs : List Fragrance), (recommendAux u n p cs).length ≤ n := by
  intro n
  induction n with
  | zero =>
    intro p cs
    simp [recommendAux]
  | succ m ih =>
    intro p cs
    cases h : bestLoop u p cs none (-1) with
    | none =>
      rw [recommendAux_succ_none h]
      simp
    | some bp =>
      obtain ⟨b, parts⟩ := bp
      rw [recommendAux_succ_some h]
      simpa using Nat.succ_le_succ (ih _ _)

/-- An element's identifier never survives into the erased candidate list when
the identifiers are distinct. -/
lemma id_not_mem_erase_map {cs : List Fragrance} {b : Fragrance}
    (hnd : (cs.map Fragrance.id).Nodup) (hmem : b ∈ cs) :
    b.id ∉ (cs.erase b).map Fragrance.id := by
  induction cs with
  | nil => simp at hmem
  | cons c t ih =>
    by_cases hcb : c = b
    · subst hcb
      rw [List.erase_cons_head]
      exact (List.nodup_cons.mp hnd).1
    · have hmem' : b ∈ t := by
        rcases List.mem_cons.mp hmem with rfl | hm
        · exact absurd rfl hcb
        · exact hm
      have hidne : b.id ≠ c.id := by
        intro he
        exact (List.nodup_cons.mp hnd).1 (he ▸ List.mem_map_of_mem Fragrance.id hmem')
      rw [List.erase_cons_tail (by simp [hcb])]
      simp only [List.map_cons, List.mem_cons]
      rintro (he | he)
      · exact hidne he
      · exact ih (List.nodup_cons.mp hnd).2 hmem' he

/-- The recorded identifiers are distinct and all drawn from the candidates. -/
lemma recommendAux_ids (u : UserProfile) :
    ∀ (n : ℕ) (p cs : List Fragrance), (cs.map Fragrance.id).Nodup →
      ((recommendAux u n p cs).map RecEntry.id).Nodup ∧
      ∀ i ∈ (recommendAux u n p cs).map RecEntry.id, i ∈ cs.map Fragrance.id := by
  intro n
  induction n with
  | zero =>
    intro p cs _
    simp [recommendAux]
  | succ m ih =>
    intro p cs hnd
    cases h : bestLoop u p cs none (-1) with
    | none =>
      rw [recommendAux_succ_none h]
      simp
    | some bp =>
      obtain ⟨b, parts⟩ := bp
      obtain ⟨-, hbmem, -, -, -, -⟩ := bestLoop_some_spec h
      rw [recommendAux_succ_some h]
      have hsubl : List.Sublist ((cs.erase b).map Fragrance.id) (cs.map Fragrance.id) :=
        (cs.erase_sublist b).map Fragrance.id
      obtain ⟨ih1, ih2⟩ := ih (p ++ [b]) (cs.erase b) (hsubl.nodup hnd)
      constructor
      · simp only [List.map_cons, List.nodup_cons, mkEntry_id]
        exact ⟨fun hmem => id_not_mem_erase_map hnd hbmem (ih2 _ hmem), ih1⟩
      · intro i hi
        simp only [List.map_cons, List.mem_cons, mkEntry_id] at hi
        rcases hi with rfl | hi
        · exact List.mem_map_of_mem Fragrance.id hbmem
        · exact hsubl.subset (ih2 i hi)

/-- With a well-formed user and catalog, selection never stops early:
exactly `min n |candidates|` entries are produced. -/
lemma recommendAux_length_eq {u : UserProfile} (hu : ValidUser u) :
    ∀ (n : ℕ) (p cs : List Fragrance), cs.Nodup →
      (∀ f ∈ cs, ValidFragrance f) → (∀ f ∈ cs, f ∉ p) →
      (recommendAux u n p cs).length = min n cs.length := by
  intro n
  induction n with
  | zero =>
    intro p cs _ _ _
    simp [recommendAux]
  | succ m ih =>
    intro p cs hnd hval hdisj
    cases hcs : cs with
    | nil =>
      subst hcs
      rw [recommendAux_succ_none (show bestLoop u p [] none (-1) = none from rfl)]
      simp
    | cons c t =>
      subst hcs
      cases h : bestLoop u p (c :: t) none (-1) with
      | none =>
        have h1 := bestLoop_none_spec h c (by simp) (hdisj c (by simp))
        have h0 := total_nonneg hu (hval c (by simp)) p
        linarith
      | some bp =>
        obtain ⟨b, parts⟩ := bp
        obtain ⟨-, hbmem, -, -, -, -⟩ := bestLoop_some_spec h
        rw [recommendAux_succ_some h]
        have hlen := List.length_erase_of_mem hbmem
        have ihlen := ih (p ++ [b]) ((c :: t).erase b) (hnd.erase b)
          (fun f hf => hval f (List.erase_subset _ _ hf))
          (fun f hf => by
            have hfp := hdisj f (List.erase_subset _ _ hf)
            have hfb := ((List.Nodup.mem_erase_iff hnd).mp hf).1
            simp [hfp, hfb])
        simp only [List.length_cons, ihlen, hlen]
        omega

/-- The recorded totals are non-increasing along the result list. -/
lemma recommendAux_chain (u : UserProfile) :
    ∀ (n : ℕ) (p cs : List Fragrance),
      List.Chain' (fun a b => b.score ≤ a.score) (recommendAux u n p cs) := by
  intro n
  induction n with
  | zero =>
    intro p cs
    simp [recommendAux]
  | succ m ih =>
    intro p cs
    cases h : bestLoop u p cs none (-1) with
    | none =>
      rw [recommendAux_succ_none h]
      simp
    | some bp =>
      obtain ⟨b, parts⟩ := bp
      rw [recommendAux_succ_some h]
      refine List.chain'_cons'.mpr ⟨?_, ih _ _⟩
      intro e' he'
      cases m with
      | zero => simp [recommendAux] at he'
      | succ m' =>
        cases h2 : bestLoop u (p ++ [b]) (cs.erase b) none (-1) with
        | none =>
          rw [recommendAux_succ_none h2] at he'
          simp at he'
        | some bp2 =>
          obtain ⟨b', parts'⟩ := bp2
          rw [recommendAux_succ_some h2] at he'
          simp only [List.head?_cons, Option.mem_def, Option.some.injEq] at he'
          subst he'
          obtain ⟨-, -, -, -, hmax1, -⟩ := bestLoop_some_spec h
          obtain ⟨hp2, hb2mem, hb2np, -, -, -⟩ := bestLoop_some_spec h2
          have hb2cs : b' ∈ cs := List.erase_subset _ _ hb2mem
          have hb2p : b' ∉ p := fun hmem => hb2np (by simp [hmem])
          have h1 : (score_user_to_fragrance u b' p).total ≤ parts.total :=
            hmax1 b' hb2cs hb2p
          have h2' : parts'.total ≤ (score_user_to_fragrance u b' p).total := by
            rw [hp2]
            exact total_append_le u b' p b
          simpa [mkEntry_score] using round3_mono (le_trans h2' h1)

/-- Every recorded entry arises from a candidate scored against some picked
list, with the rounding applied at record time. -/
lemma recommendAux_mem (u : UserProfile) :
    ∀ (n : ℕ) (p cs : List Fragrance) (e : RecEntry),
      e ∈ recommendAux u n p cs →
      ∃ b pk, b ∈ cs ∧ e = mkEntry b (score_user_to_fragrance u b pk) := by
  intro n
  induction n with
  | zero =>
    intro p cs e he
    simp [recommendAux] at he
  | succ m ih =>
    intro p cs e he
    cases h : bestLoop u p cs none (-1) with
    | none =>
      rw [recommendAux_succ_none h] at he
      simp at he
    | some bp =>
      obtain ⟨b, parts⟩ := bp
      rw [recommendAux_succ_some h] at he
      rcases List.mem_cons.mp he with rfl | he
      · obtain ⟨hp, hbmem, -⟩ := bestLoop_some_spec h
        exact ⟨b, p, hbmem, by rw [hp]⟩
      · obtain ⟨b', pk, hmem, he'⟩ := ih _ _ _ he
        exact ⟨b', pk, List.erase_subset _ _ hmem, he'⟩

/-! ### Name-independence of the core -/

/-- Two items equal after erasing the display name agree on every field the
scoring functions read. -/
lemma fits_of_stripName_eq (u : UserProfile) {f g : Fragrance}
    (h : stripName f = stripName g) :
    climate_fit u f = climate_fit u g ∧ occasion_fit u f = occasion_fit u g ∧
    intensity_fit u f = intensity_fit u g ∧
    longevity_fit u f = longevity_fit u g ∧
    latent_sim u f = latent_sim u g ∧ aspiration_fit u f = aspiration_fit u g ∧
    f.id = g.id ∧ f.archetypes = g.archetypes := by
  obtain ⟨i1, b1, n1, w1, br1, s1, l1, se1, oc1, ar1, pr1⟩ := f
  obtain ⟨i2, b2, n2, w2, br2, s2, l2, se2, oc2, ar2, pr2⟩ := g
  simp only [stripName, Fragrance.mk.injEq] at h
  obtain ⟨hi, hb, -, hw, hbr, hs, hl, hse, hoc, har, hpr⟩ := h
  subst hi hb hw hbr hs hl hse hoc har hpr
  exact ⟨rfl, rfl, rfl, rfl, rfl, rfl, rfl, rfl⟩

lemma flatMap_archetypes_congr {p₁ p₂ : List Fragrance}
    (hp : p₁.map stripName = p₂.map stripName) :
    p₁.flatMap (fun f => f.archetypes) = p₂.flatMap (fun f => f.archetypes) := by
  induction p₁ generalizing p₂ with
  | nil =>
    have : p₂ = [] := List.map_eq_nil_iff.mp hp.symm
    subst this
    rfl
  | cons a t ih =>
    cases p₂ with
    | nil => simp at hp
    | cons a₂ t₂ =>
      simp only [List.map_cons, List.cons.injEq] at hp
      obtain ⟨ha, ht⟩ := hp
      have harch : a.archetypes = a₂.archetypes := by
        simpa [stripName] using congrArg Fragrance.archetypes ha
      simp only [List.flatMap_cons, harch, ih ht]

lemma diversity_bonus_congr {f g : Fragrance} {p₁ p₂ : List Fragrance}
    (hfg : stripName f = stripName g)
    (hp : p₁.map stripName = p₂.map stripName) :
    diversity_bonus p₁ f = diversity_bonus p₂ g := by
  have harch : f.archetypes = g.archetypes := by
    simpa [stripName] using congrArg Fragrance.archetypes hfg
  unfold diversity_bonus
  by_cases h1 : p₁ = []
  · have h2 : p₂ = [] := by
      subst h1
      exact List.map_eq_nil_iff.mp hp.symm
    rw [if_pos h1, if_pos h2]
  · have h2 : p₂ ≠ [] := by
      intro hc
      subst hc
      exact h1 (List.map_eq_nil_iff.mp hp)
    rw [if_neg h1, if_neg h2, harch, flatMap_archetypes_congr hp]

lemma score_congr {u : UserProfile} {f g : Fragrance} {p₁ p₂ : List Fragrance}
    (hfg : stripName f = stripName g)
    (hp : p₁.map stripName = p₂.map stripName) :
    score_user_to_fragrance u f p₁ = score_user_to_fragrance u g p₂ := by
  obtain ⟨h1, h2, h3, h4, h5, h6, -, -⟩ := fits_of_stripName_eq u hfg
  have hd := diversity_bonus_congr hfg hp
  unfold score_user_to_fragrance
  rw [h1, h2, h3, h4, h5, h6, hd]

/-- The inner loop treats two runs that differ only in display names
identically: same break-down, name-equivalent winner. -/
lemma bestLoop_congr (u : UserProfile) {p₁ p₂ : List Fragrance}
    (hp : p₁.map stripName = p₂.map stripName) :
    ∀ (cs₁ : List Fragrance) (cs₂ : List Fragrance),
      cs₁.map stripName = cs₂.map stripName →
      (∀ f ∈ cs₁, f ∉ p₁) → (∀ f ∈ cs₂, f ∉ p₂) →
      ∀ (acc₁ acc₂ : Option (Fragrance × ScoreParts)) (s : ℚ),
        ((acc₁ = none ∧ acc₂ = none) ∨
         (∃ a₁ a₂ q, acc₁ = some (a₁, q) ∧ acc₂ = some (a₂, q) ∧
           stripName a₁ = stripName a₂)) →
        ((bestLoop u p₁ cs₁ acc₁ s = none ∧ bestLoop u p₂ cs₂ acc₂ s = none) ∨
         (∃ b₁ b₂ q, bestLoop u p₁ cs₁ acc₁ s = some (b₁, q) ∧
           bestLoop u p₂ cs₂ acc₂ s = some (b₂, q) ∧
           stripName b₁ = stripName b₂)) := by
  intro cs₁
  induction cs₁ with
  | nil =>
    intro cs₂ hcs _ _ acc₁ acc₂ s hacc
    have : cs₂ = [] := List.map_eq_nil_iff.mp hcs.symm
    subst this
    rcases hacc with ⟨rfl, rfl⟩ | ⟨a₁, a₂, q, rfl, rfl, ha⟩
    · left
      exact ⟨rfl, rfl⟩
    · right
      exact ⟨a₁, a₂, q, rfl, rfl, ha⟩
  | cons f₁ t₁ ih =>
    intro cs₂ hcs hd₁ hd₂ acc₁ acc₂ s hacc
    cases cs₂ with
    | nil => simp at hcs
    | cons f₂ t₂ =>
      simp only [List.map_cons, List.cons.injEq] at hcs
      obtain ⟨hf, ht⟩ := hcs
      have hsc : score_user_to_fragrance u f₁ p₁ = score_user_to_fragrance u f₂ p₂ :=
        score_congr hf hp
      have hf₁ : f₁ ∉ p₁ := hd₁ f₁ (by simp)
      have hf₂ : f₂ ∉ p₂ := hd₂ f₂ (by simp)
      have hd₁' : ∀ f ∈ t₁, f ∉ p₁ := fun f hfm => hd₁ f (by simp [hfm])
      have hd₂' : ∀ f ∈ t₂, f ∉ p₂ := fun f hfm => hd₂ f (by simp [hfm])
      simp only [bestLoop]
      by_cases hgt : (score_user_to_fragrance u f₁ p₁).total > s
      · rw [if_pos ⟨hgt, hf₁⟩, if_pos ⟨by rw [← hsc]; exact hgt, hf₂⟩, ← hsc]
        exact ih t₂ ht hd₁' hd₂' _ _ _ (Or.inr ⟨f₁, f₂, _, rfl, rfl, hf⟩)
      · rw [if_neg (fun hc => hgt hc.1),
          if_neg (fun hc => hgt (by rw [hsc]; exact hc.1))]
        exact ih t₂ ht hd₁' hd₂' _ _ _ hacc

/-- Erasing a member commutes with erasing names, when names aside the
candidates are pairwise distinct. -/
lemma map_stripName_erase {cs : List Fragrance} {b : Fragrance} (hmem : b ∈ cs)
    (hnd : (cs.map stripName).Nodup) :
    (cs.erase b).map stripName = (cs.map stripName).erase (stripName b) := by
  induction cs with
  | nil => simp at hmem
  | cons c t ih =>
    by_cases hcb : c = b
    · subst hcb
      rw [List.erase_cons_head, List.map_cons, List.erase_cons_head]
    · have hmem' : b ∈ t := by
        rcases List.mem_cons.mp hmem with rfl | hm
        · exact absurd rfl hcb
        · exact hm
      have hne : stripName c ≠ stripName b := by
        intro he
        exact (List.nodup_cons.mp hnd).1 (he ▸ List.mem_map_of_mem stripName hmem')
      rw [List.erase_cons_tail (by simp [hcb]), List.map_cons, List.map_cons,
        List.erase_cons_tail (by simp [hne]), ih hmem' (List.nodup_cons.mp hnd).2]

/-- The whole selection is name-independent: runs over two catalogs that
agree after erasing display names produce the same results up to the
recorded names. -/
lemma recommendAux_congr (u : UserProfile) :
    ∀ (n : ℕ) (p₁ p₂ cs₁ cs₂ : List Fragrance),
      p₁.map stripName = p₂.map stripName →
      cs₁.map stripName = cs₂.map stripName →
      (cs₁.map stripName).Nodup →
      (∀ f ∈ cs₁, f ∉ p₁) → (∀ f ∈ cs₂, f ∉ p₂) →
      (recommendAux u n p₁ cs₁).map stripEntryName =
        (recommendAux u n p₂ cs₂).map stripEntryName := by
  intro n
  induction n with
  | zero =>
    intros
    simp [recommendAux]
  | succ m ih =>
    intro p₁ p₂ cs₁ cs₂ hp hcs hnd hd₁ hd₂
    rcases bestLoop_congr u hp cs₁ cs₂ hcs hd₁ hd₂ none none (-1)
        (Or.inl ⟨rfl, rfl⟩) with
      ⟨h₁, h₂⟩ | ⟨b₁, b₂, q, h₁, h₂, hb⟩
    · rw [recommendAux_succ_none h₁, recommendAux_succ_none h₂]
    · rw [recommendAux_succ_some h₁, recommendAux_succ_some h₂]
      obtain ⟨-, hb₁mem, -⟩ := bestLoop_some_spec h₁
      obtain ⟨-, hb₂mem, -⟩ := bestLoop_some_spec h₂
      have hnd₂ : (cs₂.map stripName).Nodup := hcs ▸ hnd
      simp only [List.map_cons]
      have hed : stripEntryName (mkEntry b₁ q) = stripEntryName (mkEntry b₂ q) := by
        obtain ⟨-, -, -, -, -, -, hid, harch⟩ := fits_of_stripName_eq u hb
        simp [stripEntryName, mkEntry, hid, harch]
      rw [hed]
      congr 1
      apply ih
      · simp [hp, hb]
      · rw [map_stripName_erase hb₁mem hnd, map_stripName_erase hb₂mem hnd₂, hcs, hb]
      · rw [map_stripName_erase hb₁mem hnd]
        exact hnd.erase _
      · intro f hf
        have hfp := hd₁ f (List.erase_subset _ _ hf)
        have hfb : f ≠ b₁ :=
          ((List.Nodup.mem_erase_iff (List.Nodup.of_map stripName hnd)).mp hf).1
        simp [hfp, hfb]
      · intro f hf
        have hfp := hd₂ f (List.erase_subset _ _ hf)
        have hfb : f ≠ b₂ :=
          ((List.Nodup.mem_erase_iff (List.Nodup.of_map stripName hnd₂)).mp hf).1
        simp [hfp, hfb]

/-! ### Concrete evaluations -/

/-- A profile tailored to item "9": used to surface the one concrete
difference between the two catalog constants. -/
def u9 : UserProfile :=
  ⟨"hot", "everyday", "moderate", "workday", 0.40, 0.25, ["youthful"]⟩

/-- A profile with a duplicated aspiration tag. -/
def uDup : UserProfile :=
  ⟨"mild", "office", "skin", "workday", 0.40, 0.35, ["elegant", "elegant"]⟩

/-- A profile with an unrecognized intensity value. -/
def uGym : UserProfile :=
  ⟨"mild", "office", "gym", "workday", 0.40, 0.35, []⟩

lemma demo_score1 : score_user_to_fragrance demoUser item1 [] =
    ⟨1, 1, 0.5, 1, 0.975, 0, 0.05, 0.7725⟩ := by
  simp [score_user_to_fragrance, climate_fit, occasion_fit, intensity_fit,
    longevity_fit, latent_sim, aspiration_fit_eq, diversity_bonus, clamp01,
    closeness, map_intensity_to_sillage, map_longevity_goal, WEIGHTS,
    item1, demoUser, ScoreParts.mk.injEq]
  norm_num [sup_eq_max, max_def, min_def, abs_of_nonneg, abs_of_nonpos]

lemma demo_score2 : score_user_to_fragrance demoUser item2 [] =
    ⟨1, 0.6, 0.25, 1, 0.925, 0, 0.05, 0.665⟩ := by
  simp [score_user_to_fragrance, climate_fit, occasion_fit, intensity_fit,
    longevity_fit, latent_sim, aspiration_fit_eq, diversity_bonus, clamp01,
    closeness, map_intensity_to_sillage, map_longevity_goal, WEIGHTS,
    item2, demoUser, ScoreParts.mk.injEq]
  norm_num [sup_eq_max, max_def, min_def, abs_of_nonneg, abs_of_nonpos]

lemma demo_score3 : score_user_to_fragrance demoUser item3 [] =
    ⟨1, 1, 0.25, 0.75, 0.725, 0, 0.05, 0.6475⟩ := by
  simp [score_user_to_fragrance, climate_fit, occasion_fit, intensity_fit,
    longevity_fit, latent_sim, aspiration_fit_eq, diversity_bonus, clamp01,
    closeness, map_intensity_to_sillage, map_longevity_goal, WEIGHTS,
    item3, demoUser, ScoreParts.mk.injEq]
  norm_num [sup_eq_max, max_def, min_def, abs_of_nonneg, abs_of_nonpos]

lemma demo_score4 : score_user_to_fragrance demoUser item4 [] =
    ⟨1, 0.2, 0, 0.75, 0.55, 1, 0.05, 0.555⟩ := by
  simp [score_user_to_fragrance, climate_fit, occasion_fit, intensity_fit,
    longevity_fit, latent_sim, aspiration_fit_eq, diversity_bonus, clamp01,
    closeness, map_intensity_to_sillage, map_longevity_goal, WEIGHTS,
    item4, demoUser, ScoreParts.mk.injEq]
  norm_num [sup_eq_max, max_def, min_def, abs_of_nonneg, abs_of_nonpos]

lemma demo_score5 : score_user_to_fragrance demoUser item5 [] =
    ⟨1, 1, 0.5, 0.75, 0.7, 0.5, 0.05, 0.73⟩ := by
  simp [score_user_to_fragrance, climate_fit, occasion_fit, intensity_fit,
    longevity_fit, latent_sim, aspiration_fit_eq, diversity_bonus, clamp01,
    closeness, map_intensity_to_sillage, map_longevity_goal, WEIGHTS,
    item5, demoUser, ScoreParts.mk.injEq]
  norm_num [sup_eq_max, max_def, min_def, abs_of_nonneg, abs_of_nonpos]

lemma demo_score6 : score_user_to_fragrance demoUser item6 [] =
    ⟨0.3, 0.2, 0, 0.75, 0.55, 0.5, 0.05, 0.365⟩ := by
  simp [score_user_to_fragrance, climate_fit, occasion_fit, intensity_fit,
    longevity_fit, latent_sim, aspiration_fit_eq, diversity_bonus, clamp01,
    closeness, map_intensity_to_sillage, map_longevity_goal, WEIGHTS,
    item6, demoUser, ScoreParts.mk.injEq]
  norm_num [sup_eq_max, max_def, min_def, abs_of_nonneg, abs_of_nonpos]

lemma demo_score7 : score_user_to_fragrance demoUser item7 [] =
    ⟨1, 1, 0.75, 0.75, 0.825, 0, 0.05, 0.7425⟩ := by
  simp [score_user_to_fragrance, climate_fit, occasion_fit, intensity_fit,
    longevity_fit, latent_sim, aspiration_fit_eq, diversity_bonus, clamp01,
    closeness, map_intensity_to_sillage, map_longevity_goal, WEIGHTS,
    item7, demoUser, ScoreParts.mk.injEq]
  norm_num [sup_eq_max, max_def, min_def, abs_of_nonneg, abs_of_nonpos]

lemma demo_score8 : score_user_to_fragrance demoUser item8 [] =
    ⟨1, 1, 0.75, 1, 0.95, 0.5, 0.05, 0.855⟩ := by
  simp [score_user_to_fragrance, climate_fit, occasion_fit, intensity_fit,
    longevity_fit, latent_sim, aspiration_fit_eq, diversity_bonus, clamp01,
    closeness, map_intensity_to_sillage, map_longevity_goal, WEIGHTS,
    item8, demoUser, ScoreParts.mk.injEq]
  norm_num [sup_eq_max, max_def, min_def, abs_of_nonneg, abs_of_nonpos]

lemma demo_score9 : score_user_to_fragrance demoUser item9 [] =
    ⟨1, 1, 0.5, 1, 0.95, 0, 0.05, 0.7675⟩ := by
  simp [score_user_to_fragrance, climate_fit, occasion_fit, intensity_fit,
    longevity_fit, latent_sim, aspiration_fit_eq, diversity_bonus, clamp01,
    closeness, map_intensity_to_sillage, map_longevity_goal, WEIGHTS,
    item9, demoUser, ScoreParts.mk.injEq]
  norm_num [sup_eq_max, max_def, min_def, abs_of_nonneg, abs_of_nonpos]

lemma demo_score9d : score_user_to_fragrance demoUser item9d [] =
    ⟨1, 1, 0.5, 1, 0.95, 0, 0.05, 0.7675⟩ := by
  rw [score_congr (show stripName item9d = stripName item9 from rfl)
    (show ([] : List Fragrance).map stripName = [].map stripName from rfl)]
  exact demo_score9

lemma u9_score1 : score_user_to_fragrance u9 item1 [] =
    ⟨1, 1, 1, 1, 0.925, 0, 0.05, 0.8375⟩ := by
  simp [score_user_to_fragrance, climate_fit, occasion_fit, intensity_fit,
    longevity_fit, latent_sim, aspiration_fit_eq, diversity_bonus, clamp01,
    closeness, map_intensity_to_sillage, map_longevity_goal, WEIGHTS,
    item1, u9, ScoreParts.mk.injEq]
  norm_num [sup_eq_max, max_def, min_def, abs_of_nonneg, abs_of_nonpos]

lemma u9_score2 : score_user_to_fragrance u9 item2 [] =
    ⟨1, 1, 0.75, 1, 0.875, 1, 0.05, 0.89⟩ := by
  simp [score_user_to_fragrance, climate_fit, occasion_fit, intensity_fit,
    longevity_fit, latent_sim, aspiration_fit_eq, diversity_bonus, clamp01,
    closeness, map_intensity_to_sillage, map_longevity_goal, WEIGHTS,
    item2, u9, ScoreParts.mk.injEq]
  norm_num [sup_eq_max, max_def, min_def, abs_of_nonneg, abs_of_nonpos]

lemma u9_score3 : score_user_to_fragrance u9 item3 [] =
    ⟨0.3, 0.2, 0.75, 0.75, 0.675, 0, 0.05, 0.4525⟩ := by
  simp [score_user_to_fragrance, climate_fit, occasion_fit, intensity_fit,
    longevity_fit, latent_sim, aspiration_fit_eq, diversity_bonus, clamp01,
    closeness, map_intensity_to_sillage, map_longevity_goal, WEIGHTS,
    item3, u9, ScoreParts.mk.injEq]
  norm_num [sup_eq_max, max_def, min_def, abs_of_nonneg, abs_of_nonpos]

lemma u9_score4 : score_user_to_fragrance u9 item4 [] =
    ⟨0.3, 0.2, 0.5, 0.75, 0.5, 0, 0.05, 0.38⟩ := by
  simp [score_user_to_fragrance, climate_fit, occasion_fit, intensity_fit,
    longevity_fit, latent_sim, aspiration_fit_eq, diversity_bonus, clamp01,
    closeness, map_intensity_to_sillage, map_longevity_goal, WEIGHTS,
    item4, u9, ScoreParts.mk.injEq]
  norm_num [sup_eq_max, max_def, min_def, abs_of_nonneg, abs_of_nonpos]

lemma u9_score5 : score_user_to_fragrance u9 item5 [] =
    ⟨0.3, 0.2, 1, 0.75, 0.65, 0, 0.05, 0.485⟩ := by
  simp [score_user_to_fragrance, climate_fit, occasion_fit, intensity_fit,
    longevity_fit, latent_sim, aspiration_fit_eq, diversity_bonus, clamp01,
    closeness, map_intensity_to_sillage, map_longevity_goal, WEIGHTS,
    item5, u9, ScoreParts.mk.injEq]
  norm_num [sup_eq_max, max_def, min_def, abs_of_nonneg, abs_of_nonpos]

lemma u9_score6 : score_user_to_fragrance u9 item6 [] =
    ⟨0.3, 0.2, 0.5, 0.75, 0.5, 0, 0.05, 0.38⟩ := by
  simp [score_user_to_fragrance, climate_fit, occasion_fit, intensity_fit,
    longevity_fit, latent_sim, aspiration_fit_eq, diversity_bonus, clamp01,
    closeness, map_intensity_to_sillage, map_longevity_goal, WEIGHTS,
    item6, u9, ScoreParts.mk.injEq]
  norm_num [sup_eq_max, max_def, min_def, abs_of_nonneg, abs_of_nonpos]

lemma u9_score7 : score_user_to_fragrance u9 item7 [] =
    ⟨1, 1, 0.75, 0.75, 0.875, 0, 0.05, 0.7525⟩ := by
  simp [score_user_to_fragrance, climate_fit, occasion_fit, intensity_fit,
    longevity_fit, latent_sim, aspiration_fit_eq, diversity_bonus, clamp01,
    closeness, map_intensity_to_sillage, map_longevity_goal, WEIGHTS,
    item7, u9, ScoreParts.mk.injEq]
  norm_num [sup_eq_max, max_def, min_def, abs_of_nonneg, abs_of_nonpos]

lemma u9_score8 : score_user_to_fragrance u9 item8 [] =
    ⟨0.3, 0.2, 0.75, 1, 0.95, 0, 0.05, 0.545⟩ := by
  simp [score_user_to_fragrance, climate_fit, occasion_fit, intensity_fit,
    longevity_fit, latent_sim, aspiration_fit_eq, diversity_bonus, clamp01,
    closeness, map_intensity_to_sillage, map_longevity_goal, WEIGHTS,
    item8, u9, ScoreParts.mk.injEq]
  norm_num [sup_eq_max, max_def, min_def, abs_of_nonneg, abs_of_nonpos]

lemma u9_score9 : score_user_to_fragrance u9 item9 [] =
    ⟨1, 1, 1, 1, 1, 1, 0.05, 0.9525⟩ := by
  simp [score_user_to_fragrance, climate_fit, occasion_fit, intensity_fit,
    longevity_fit, latent_sim, aspiration_fit_eq, diversity_bonus, clamp01,
    closeness, map_intensity_to_sillage, map_longevity_goal, WEIGHTS,
    item9, u9, ScoreParts.mk.injEq]
  norm_num [sup_eq_max, max_def, min_def, abs_of_nonneg, abs_of_nonpos]

lemma u9_score9d : score_user_to_fragrance u9 item9d [] =
    ⟨1, 1, 1, 1, 1, 1, 0.05, 0.9525⟩ := by
  rw [score_congr (show stripName item9d = stripName item9 from rfl)
    (show ([] : List Fragrance).map stripName = [].map stripName from rfl)]
  exact u9_score9

/-- First demo round over the catalog of `streamlit_app.py`:
item "8" wins with raw total `0.855`. -/
lemma bestLoop_demo_app : bestLoop demoUser [] CATALOG none (-1) =
    some (item8, ⟨1, 1, 0.75, 1, 0.95, 0.5, 0.05, 0.855⟩) := by
  have h := bestLoop_complete demoUser [] item8 [item9] (by simp)
    (by
      intro f hf _
      rcases List.mem_singleton.mp hf with rfl
      norm_num [demo_score9, demo_score8])
    [item1, item2, item3, item4, item5, item6, item7] none (-1)
    (by norm_num [demo_score8])
    (by
      intro f hf _
      simp only [List.mem_cons, List.not_mem_nil, or_false] at hf
      rcases hf with rfl | rfl | rfl | rfl | rfl | rfl | rfl <;>
        norm_num [demo_score1, demo_score2, demo_score3, demo_score4,
          demo_score5, demo_score6, demo_score7, demo_score8])
  rw [show CATALOG = [item1, item2, item3, item4, item5, item6, item7] ++
    item8 :: [item9] from rfl, h, demo_score8]

/-- First demo round over the catalog of `streamlit_app.py.py`:
same winner, same break-down. -/
lemma bestLoop_demo_demo : bestLoop demoUser [] CATALOG_demo none (-1) =
    some (item8, ⟨1, 1, 0.75, 1, 0.95, 0.5, 0.05, 0.855⟩) := by
  have h := bestLoop_complete demoUser [] item8 [item9d] (by simp)
    (by
      intro f hf _
      rcases List.mem_singleton.mp hf with rfl
      norm_num [demo_score9d, demo_score8])
    [item1, item2, item3, item4, item5, item6, item7] none (-1)
    (by norm_num [demo_score8])
    (by
      intro f hf _
      simp only [List.mem_cons, List.not_mem_nil, or_false] at hf
      rcases hf with rfl | rfl | rfl | rfl | rfl | rfl | rfl <;>
        norm_num [demo_score1, demo_score2, demo_score3, demo_score4,
          demo_score5, demo_score6, demo_score7, demo_score8])
  rw [show CATALOG_demo = [item1, item2, item3, item4, item5, item6, item7] ++
    item8 :: [item9d] from rfl, h, demo_score8]

/-- First round for the item-9-tailored profile over the catalog of
`streamlit_app.py`: item "9" wins with raw total `0.9525`. -/
lemma bestLoop_u9_app : bestLoop u9 [] CATALOG none (-1) =
    some (item9, ⟨1, 1, 1, 1, 1, 1, 0.05, 0.9525⟩) := by
  have h := bestLoop_complete u9 [] item9 [] (by simp) (by simp)
    [item1, item2, item3, item4, item5, item6, item7, item8] none (-1)
    (by norm_num [u9_score9])
    (by
      intro f hf _
      simp only [List.mem_cons, List.not_mem_nil, or_false] at hf
      rcases hf with rfl | rfl | rfl | rfl | rfl | rfl | rfl | rfl <;>
        norm_num [u9_score1, u9_score2, u9_score3, u9_score4,
          u9_score5, u9_score6, u9_score7, u9_score8, u9_score9])
  rw [show CATALOG = [item1, item2, item3, item4, item5, item6, item7, item8] ++
    item9 :: [] from rfl, h, u9_score9]

/-- First round for the item-9-tailored profile over the catalog of
`streamlit_app.py.py`. -/
lemma bestLoop_u9_demo : bestLoop u9 [] CATALOG_demo none (-1) =
    some (item9d, ⟨1, 1, 1, 1, 1, 1, 0.05, 0.9525⟩) := by
  have h := bestLoop_complete u9 [] item9d [] (by simp) (by simp)
    [item1, item2, item3, item4, item5, item6, item7, item8] none (-1)
    (by norm_num [u9_score9d])
    (by
      intro f hf _
      simp only [List.mem_cons, List.not_mem_nil, or_false] at hf
      rcases hf with rfl | rfl | rfl | rfl | rfl | rfl | rfl | rfl <;>
        norm_num [u9_score1, u9_score2, u9_score3, u9_score4,
          u9_score5, u9_score6, u9_score7, u9_score8, u9_score9d])
  rw [show CATALOG_demo = [item1, item2, item3, item4, item5, item6, item7, item8] ++
    item9d :: [] from rfl, h, u9_score9d]

/-! ### Catalog facts -/

lemma CATALOG_ids_nodup : (CATALOG.map Fragrance.id).Nodup := by decide

lemma CATALOG_valid : ∀ f ∈ CATALOG, ValidFragrance f := by
  intro f hf
  simp only [CATALOG, List.mem_cons, List.not_mem_nil, or_false] at hf
  rcases hf with rfl | rfl | rfl | rfl | rfl | rfl | rfl | rfl | rfl <;>
    norm_num [ValidFragrance, item1, item2, item3, item4, item5, item6,
      item7, item8, item9]

lemma map_stripName_CATALOG : CATALOG.map stripName = CATALOG_demo.map stripName := rfl

lemma CATALOG_strip_nodup : (CATALOG.map stripName).Nodup := by
  have h : ((CATALOG.map stripName).map Fragrance.id).Nodup := by
    rw [List.map_map]
    exact CATALOG_ids_nodup
  exact List.Nodup.of_map _ h

/-! ### The claims -/

/-- A profile whose latent similarity is not 3-decimal stable. -/
def uLat : UserProfile :=
  ⟨"mild", "office", "skin", "workday", 0.123, 0.35, []⟩

/-- C1, counterexample: for the demo profile and the default catalog of
`streamlit_app.py.py`, the first entry returned by `recommend` is item "8"
(Prada), not item "1" ("Bleu de Chanel") as the claim states. -/
theorem C1_counterexample :
    ∃ e, (recommend_demo demoUser 3).head? = some e ∧ e.id = "8" ∧
      e.id ≠ "1" ∧ e.name = "Prada Infusion d\x27Iris" := by
  rw [recommend_demo, recommendOn, show (3 : ℤ).toNat = 2 + 1 from rfl,
    recommendAux_succ_some bestLoop_demo_demo]
  exact ⟨_, rfl, rfl, by decide, rfl⟩

/-- C1, amended: the first entry returned for the demo profile is the catalog
item maximizing the weighted total over the empty picked set, namely item "8"
("Prada Infusion d\x27Iris"), and its recorded total equals the documented
weighted sum of its seven sub-scores (rounding to 3 decimals is applied at
record time; the sum `0.855` here is 3-decimal stable, so they agree exactly). -/
theorem C1_amended :
    ∃ e, (recommend_demo demoUser 3).head? = some e ∧ e.id = "8" ∧
      e.name = "Prada Infusion d\x27Iris" ∧
      (∀ f ∈ CATALOG_demo, (score_user_to_fragrance demoUser f []).total ≤
        (score_user_to_fragrance demoUser item8 []).total) ∧
      e.score = round3 (0.20 * climate_fit demoUser item8
        + 0.15 * occasion_fit demoUser item8 + 0.15 * intensity_fit demoUser item8
        + 0.15 * longevity_fit demoUser item8 + 0.20 * latent_sim demoUser item8
        + 0.10 * aspiration_fit demoUser item8
        + 0.05 * diversity_bonus [] item8) ∧
      e.score = 0.20 * climate_fit demoUser item8
        + 0.15 * occasion_fit demoUser item8 + 0.15 * intensity_fit demoUser item8
        + 0.15 * longevity_fit demoUser item8 + 0.20 * latent_sim demoUser item8
        + 0.10 * aspiration_fit demoUser item8
        + 0.05 * diversity_bonus [] item8 ∧
      e.parts.total = e.score := by
  have hsum : 0.20 * climate_fit demoUser item8
      + 0.15 * occasion_fit demoUser item8 + 0.15 * intensity_fit demoUser item8
      + 0.15 * longevity_fit demoUser item8 + 0.20 * latent_sim demoUser item8
      + 0.10 * aspiration_fit demoUser item8
      + 0.05 * diversity_bonus [] item8 = 0.855 := by
    rw [← score_total]
    rw [demo_score8]
  rw [recommend_demo, recommendOn, show (3 : ℤ).toNat = 2 + 1 from rfl,
    recommendAux_succ_some bestLoop_demo_demo]
  refine ⟨_, rfl, rfl, rfl, ?_, ?_, ?_, ?_⟩
  · intro f hf
    rw [demo_score8]
    simp only [CATALOG_demo, List.mem_cons, List.not_mem_nil, or_false] at hf
    rcases hf with rfl | rfl | rfl | rfl | rfl | rfl | rfl | rfl | rfl <;>
      norm_num [demo_score1, demo_score2, demo_score3, demo_score4,
        demo_score5, demo_score6, demo_score7, demo_score8, demo_score9d]
  · rw [hsum]
    rfl
  · rw [hsum]
    show round3 0.855 = 0.855
    norm_num [round3, round_eq]
  · show round3 (0.855 : ℚ) = round3 (0.855 : ℚ)
    rfl

/-- C2, counterexample: a negative `k` does not signal any failure — the
selection loop simply runs zero rounds and `recommend` returns the empty
list as a normal result. -/
theorem C2_counterexample : recommend demoUser (-1) = [] := rfl

/-- C2, amended: `recommend` never fails: it returns at most `max k 0`
entries for every `k` (an empty list for every negative `k`, with no error
signalled), and an empty catalog yields an empty result. -/
theorem C2_amended :
    ∀ (cat : List Fragrance) (u : UserProfile) (k : ℤ),
      (recommendOn cat u k).length ≤ k.toNat ∧
      (k < 0 → recommendOn cat u k = []) ∧
      recommendOn [] u k = [] := by
  intro cat u k
  refine ⟨recommendAux_length_le u _ _ _, ?_, ?_⟩
  · intro hk
    rw [recommendOn, Int.toNat_of_nonpos (le_of_lt hk)]
    rfl
  · rw [recommendOn]
    cases k.toNat with
    | zero => rfl
    | succ n =>
      exact recommendAux_succ_none (show bestLoop u [] [] none (-1) = none from rfl)

/-- Witness for C2 at `k = -2`. -/
theorem C2_witness :
    (-2 : ℤ) < 0 ∧ recommendOn CATALOG demoUser (-2) = [] ∧
      recommendOn [] demoUser (-2) = [] :=
  ⟨by norm_num, (C2_amended CATALOG demoUser (-2)).2.1 (by norm_num),
    (C2_amended CATALOG demoUser (-2)).2.2⟩

/-- C3: in every round, the recorded item is an unpicked candidate whose
total is maximal among the remaining candidates, and it is the first
candidate attaining that maximum (everything strictly earlier scores
strictly less), because the loop compares with strict greater-than. -/
theorem C3_round_argmax_first_wins :
    ∀ (u : UserProfile) (n : ℕ) (p cs : List Fragrance) (b : Fragrance)
      (parts : ScoreParts),
      bestLoop u p cs none (-1) = some (b, parts) →
      recommendAux u (n + 1) p cs =
        mkEntry b parts :: recommendAux u n (p ++ [b]) (cs.erase b) ∧
      b ∈ cs ∧ b ∉ p ∧ parts = score_user_to_fragrance u b p ∧
      (∀ c ∈ cs, c ∉ p →
        (score_user_to_fragrance u c p).total ≤ parts.total) ∧
      ∃ pre post, cs = pre ++ b :: post ∧
        (∀ c ∈ pre, c ∉ p →
          (score_user_to_fragrance u c p).total < parts.total) := by
  intro u n p cs b parts h
  obtain ⟨hp, hmem, hnp, -, hmax, pre, post, heq, hpre, -⟩ := bestLoop_some_spec h
  exact ⟨recommendAux_succ_some h, hmem, hnp, hp, hmax, pre, post, heq, hpre⟩

/-- Witness for C3: the first demo round over the `streamlit_app.py` catalog. -/
theorem C3_witness :
    bestLoop demoUser [] CATALOG none (-1) =
      some (item8, ⟨1, 1, 0.75, 1, 0.95, 0.5, 0.05, 0.855⟩) ∧
    (recommendAux demoUser (0 + 1) [] CATALOG =
      mkEntry item8 ⟨1, 1, 0.75, 1, 0.95, 0.5, 0.05, 0.855⟩ ::
        recommendAux demoUser 0 ([] ++ [item8]) (CATALOG.erase item8) ∧
    item8 ∈ CATALOG ∧ item8 ∉ ([] : List Fragrance) ∧
    (⟨1, 1, 0.75, 1, 0.95, 0.5, 0.05, 0.855⟩ : ScoreParts) =
      score_user_to_fragrance demoUser item8 [] ∧
    (∀ c ∈ CATALOG, c ∉ ([] : List Fragrance) →
      (score_user_to_fragrance demoUser c []).total ≤
        (⟨1, 1, 0.75, 1, 0.95, 0.5, 0.05, 0.855⟩ : ScoreParts).total) ∧
    ∃ pre post, CATALOG = pre ++ item8 :: post ∧
      (∀ c ∈ pre, c ∉ ([] : List Fragrance) →
        (score_user_to_fragrance demoUser c []).total <
          (⟨1, 1, 0.75, 1, 0.95, 0.5, 0.05, 0.855⟩ : ScoreParts).total)) :=
  ⟨bestLoop_demo_app,
    C3_round_argmax_first_wins demoUser 0 [] CATALOG item8 _ bestLoop_demo_app⟩

/-- C4: `recommend` returns at most `max k 0` entries with pairwise-distinct
identifiers, and — for a well-formed profile — `k` at least the catalog size
yields every catalog identifier exactly once (a permutation of the catalog's
identifier list). -/
theorem C4_at_most_k_distinct_complete :
    ∀ (u : UserProfile) (k : ℤ),
      (recommend u k).length ≤ k.toNat ∧
      ((recommend u k).map RecEntry.id).Nodup ∧
      (ValidUser u → (CATALOG.length : ℤ) ≤ k →
        ((recommend u k).map RecEntry.id).Perm (CATALOG.map Fragrance.id)) := by
  intro u k
  refine ⟨recommendAux_length_le u _ _ _,
    (recommendAux_ids u k.toNat [] CATALOG CATALOG_ids_nodup).1, ?_⟩
  intro hu hk
  obtain ⟨hnd, hsub⟩ := recommendAux_ids u k.toNat [] CATALOG CATALOG_ids_nodup
  have hlen : (recommend u k).length = min k.toNat CATALOG.length :=
    recommendAux_length_eq hu k.toNat [] CATALOG
      (List.Nodup.of_map _ CATALOG_ids_nodup) CATALOG_valid (by simp)
  have hk' : CATALOG.length ≤ k.toNat := by omega
  have hlen' : (recommend u k).length = CATALOG.length := by omega
  have hsp : ((recommend u k).map RecEntry.id).Subperm (CATALOG.map Fragrance.id) :=
    List.Nodup.subperm hnd hsub
  refine hsp.perm_of_length_le ?_
  simp only [List.length_map]
  omega

/-- Witness for C4 at the demo profile and `k = 9`. -/
theorem C4_witness :
    ValidUser demoUser ∧ (CATALOG.length : ℤ) ≤ 9 ∧
      ((recommend demoUser 9).map RecEntry.id).Perm (CATALOG.map Fragrance.id) :=
  ⟨by norm_num [ValidUser, demoUser], by norm_num [CATALOG],
    (C4_at_most_k_distinct_complete demoUser 9).2.2
      (by norm_num [ValidUser, demoUser]) (by norm_num [CATALOG])⟩

/-- C5, counterexample: `score_user_to_fragrance` returns the raw breakdown —
a latent sub-score of `0.8365` is returned unrounded, so the breakdown is not
rounded to 3 decimal places by the score function itself. -/
theorem C5_counterexample :
    (score_user_to_fragrance uLat item1 []).latent = 0.8365 ∧
    round3 ((score_user_to_fragrance uLat item1 []).latent) ≠
      (score_user_to_fragrance uLat item1 []).latent := by
  have hl : (score_user_to_fragrance uLat item1 []).latent = 0.8365 := by
    rw [score_latent]
    norm_num [latent_sim, closeness, uLat, item1, abs_of_nonneg, abs_of_nonpos]
  refine ⟨hl, ?_⟩
  rw [hl]
  norm_num [round3, round_eq]

/-- C5, amended: the score function returns the raw (unrounded) sub-scores
together with a total that is exactly the documented fixed-weight sum; the
3-decimal rounding of every component is applied by `recommend` when the
winning entry is recorded. -/
theorem C5_amended :
    (∀ (u : UserProfile) (f : Fragrance) (p : List Fragrance),
      (score_user_to_fragrance u f p).total =
        0.20 * climate_fit u f + 0.15 * occasion_fit u f
          + 0.15 * intensity_fit u f + 0.15 * longevity_fit u f
          + 0.20 * latent_sim u f + 0.10 * aspiration_fit u f
          + 0.05 * diversity_bonus p f) ∧
    (∀ (u : UserProfile) (n : ℕ) (p cs : List Fragrance) (b : Fragrance)
      (parts : ScoreParts),
      bestLoop u p cs none (-1) = some (b, parts) →
      recommendAux u (n + 1) p cs =
        (⟨b.id, b.full_name, round3 parts.total,
          ⟨round3 parts.climate, round3 parts.occasion, round3 parts.intensity,
            round3 parts.longevity, round3 parts.latent,
            round3 parts.aspiration, round3 parts.diversity,
            round3 parts.total⟩,
          b.archetypes⟩ : RecEntry) ::
          recommendAux u n (p ++ [b]) (cs.erase b)) :=
  ⟨score_total, fun u n p cs b parts h => recommendAux_succ_some h⟩

/-- Witness for C5: the recording step of the first demo round. -/
theorem C5_witness :
    bestLoop demoUser [] CATALOG none (-1) =
      some (item8, ⟨1, 1, 0.75, 1, 0.95, 0.5, 0.05, 0.855⟩) ∧
    recommendAux demoUser (0 + 1) [] CATALOG =
      (⟨item8.id, item8.full_name,
        round3 (⟨1, 1, 0.75, 1, 0.95, 0.5, 0.05, 0.855⟩ : ScoreParts).total,
        ⟨round3 (⟨1, 1, 0.75, 1, 0.95, 0.5, 0.05, 0.855⟩ : ScoreParts).climate,
          round3 (⟨1, 1, 0.75, 1, 0.95, 0.5, 0.05, 0.855⟩ : ScoreParts).occasion,
          round3 (⟨1, 1, 0.75, 1, 0.95, 0.5, 0.05, 0.855⟩ : ScoreParts).intensity,
          round3 (⟨1, 1, 0.75, 1, 0.95, 0.5, 0.05, 0.855⟩ : ScoreParts).longevity,
          round3 (⟨1, 1, 0.75, 1, 0.95, 0.5, 0.05, 0.855⟩ : ScoreParts).latent,
          round3 (⟨1, 1, 0.75, 1, 0.95, 0.5, 0.05, 0.855⟩ : ScoreParts).aspiration,
          round3 (⟨1, 1, 0.75, 1, 0.95, 0.5, 0.05, 0.855⟩ : ScoreParts).diversity,
          round3 (⟨1, 1, 0.75, 1, 0.95, 0.5, 0.05, 0.855⟩ : ScoreParts).total⟩,
        item8.archetypes⟩ : RecEntry) ::
        recommendAux demoUser 0 ([] ++ [item8]) (CATALOG.erase item8) :=
  ⟨bestLoop_demo_app,
    C5_amended.2 demoUser 0 [] CATALOG item8
      ⟨1, 1, 0.75, 1, 0.95, 0.5, 0.05, 0.855⟩ bestLoop_demo_app⟩

/-- C6, counterexample: for an unrecognized intensity value (here `"gym"`)
the mood phrase is `"leaves a trail"`, not the claimed default
`"moderately projecting"`. -/
theorem C6_counterexample :
    uGym.intensity ≠ "skin" ∧ uGym.intensity ≠ "moderate" ∧
    uGym.intensity ≠ "trail" ∧ explain_mood uGym = "leaves a trail" ∧
    explain_mood uGym ≠ "moderately projecting" := by
  decide

/-- C6, amended: the derived mood phrase is `"skin-close"` for `"skin"`,
`"moderately projecting"` for `"moderate"`, and `"leaves a trail"` for
`"trail"` and for every other (unrecognized) intensity value; the phrase is
spliced verbatim into the sentence produced by `explain_pick`. -/
theorem C6_amended :
    ∀ u : UserProfile,
      (u.intensity = "skin" → explain_mood u = "skin-close") ∧
      (u.intensity = "moderate" → explain_mood u = "moderately projecting") ∧
      (u.intensity = "trail" → explain_mood u = "leaves a trail") ∧
      (u.intensity ≠ "skin" → u.intensity ≠ "moderate" →
        explain_mood u = "leaves a trail") ∧
      (∀ r : RecEntry, explain_pick u r =
        "Because you chose **" ++ u.occasion ++ "** in a **" ++ u.climate
          ++ "** climate and prefer **" ++ explain_mood u ++ "** with **"
          ++ u.longevity_goal ++ "** longevity, "
          ++ "we prioritized weight/brightness close to your taste and scents mapped to **"
          ++ (if u.aspiration = [] then "your style"
            else String.intercalate ", " u.aspiration) ++ "**.") := by
  intro u
  refine ⟨?_, ?_, ?_, ?_, fun r => rfl⟩
  · intro h
    simp [explain_mood, h]
  · intro h
    simp [explain_mood, h]
  · intro h
    simp [explain_mood, h]
  · intro h1 h2
    simp [explain_mood, h1, h2]

/-- Witness for C6 at the `"gym"` profile. -/
theorem C6_witness :
    uGym.intensity ≠ "skin" ∧ uGym.intensity ≠ "moderate" ∧
    explain_mood uGym = "leaves a trail" :=
  ⟨by decide, by decide, (C6_amended uGym).2.2.2.1 (by decide) (by decide)⟩

/-- C7: under the data-model invariants every one of the seven fit functions
returns a value within `[0, 1]`. -/
theorem C7_fits_in_unit_interval :
    ∀ (u : UserProfile) (f : Fragrance) (p : List Fragrance),
      ValidUser u → ValidFragrance f → (∀ g ∈ p, ValidFragrance g) →
      (0 ≤ climate_fit u f ∧ climate_fit u f ≤ 1) ∧
      (0 ≤ occasion_fit u f ∧ occasion_fit u f ≤ 1) ∧
      (0 ≤ intensity_fit u f ∧ intensity_fit u f ≤ 1) ∧
      (0 ≤ longevity_fit u f ∧ longevity_fit u f ≤ 1) ∧
      (0 ≤ latent_sim u f ∧ latent_sim u f ≤ 1) ∧
      (0 ≤ aspiration_fit u f ∧ aspiration_fit u f ≤ 1) ∧
      (0 ≤ diversity_bonus p f ∧ diversity_bonus p f ≤ 1) := by
  intro u f p hu hf _
  refine ⟨⟨climate_fit_nonneg u f, climate_fit_le_one u f⟩,
    ⟨occasion_fit_nonneg u f, occasion_fit_le_one u f⟩, ?_, ?_,
    ⟨latent_sim_nonneg hu hf, latent_sim_le_one u f⟩,
    ⟨aspiration_fit_nonneg u f, aspiration_fit_le_one u f⟩,
    ⟨diversity_bonus_nonneg p f, diversity_bonus_le_one p f⟩⟩
  · exact ⟨clamp01_nonneg _, clamp01_le_one _⟩
  · exact ⟨clamp01_nonneg _, clamp01_le_one _⟩

/-- Witness for C7 at the demo profile, item "1" and picked list `[item4]`. -/
theorem C7_witness :
    ValidUser demoUser ∧ ValidFragrance item1 ∧
    (∀ g ∈ [item4], ValidFragrance g) ∧
    ((0 ≤ climate_fit demoUser item1 ∧ climate_fit demoUser item1 ≤ 1) ∧
      (0 ≤ occasion_fit demoUser item1 ∧ occasion_fit demoUser item1 ≤ 1) ∧
      (0 ≤ intensity_fit demoUser item1 ∧ intensity_fit demoUser item1 ≤ 1) ∧
      (0 ≤ longevity_fit demoUser item1 ∧ longevity_fit demoUser item1 ≤ 1) ∧
      (0 ≤ latent_sim demoUser item1 ∧ latent_sim demoUser item1 ≤ 1) ∧
      (0 ≤ aspiration_fit demoUser item1 ∧ aspiration_fit demoUser item1 ≤ 1) ∧
      (0 ≤ diversity_bonus [item4] item1 ∧ diversity_bonus [item4] item1 ≤ 1)) := by
  have hu : ValidUser demoUser := by norm_num [ValidUser, demoUser]
  have hf : ValidFragrance item1 := by norm_num [ValidFragrance, item1]
  have hp : ∀ g ∈ [item4], ValidFragrance g := by
    intro g hg
    rcases List.mem_singleton.mp hg with rfl
    norm_num [ValidFragrance, item4]
  exact ⟨hu, hf, hp, C7_fits_in_unit_interval demoUser item1 [item4] hu hf hp⟩

/-- The formula C8 claims for `aspiration_fit`: both cardinalities taken as
set cardinalities, in particular the denominator is the number of distinct
aspiration strings. -/
def aspirationFitClaim (user : UserProfile) (f : Fragrance) : ℚ :=
  if user.aspiration = [] then 0.5
  else clamp01 ((((user.aspiration.toFinset ∩ f.archetypes.toFinset).card : ℚ)) /
    ((max 1 user.aspiration.toFinset.card : ℕ) : ℚ))

/-- C8, counterexample: with the duplicated aspiration list
`["elegant", "elegant"]` against item "4", the code divides by the raw list
length 2 and returns `0.5`, while the claimed distinct-count denominator
would give `1`. -/
theorem C8_counterexample :
    aspiration_fit uDup item4 = 0.5 ∧ aspirationFitClaim uDup item4 = 1 ∧
    aspiration_fit uDup item4 ≠ aspirationFitClaim uDup item4 := by
  have h1 : aspiration_fit uDup item4 = 0.5 := by
    rw [aspiration_fit_eq]
    simp [uDup, item4, clamp01]
    norm_num [sup_eq_max, inf_eq_min, max_def, min_def]
  have h2 : aspirationFitClaim uDup item4 = 1 := by
    rw [aspirationFitClaim]
    simp only [uDup, item4]
    rw [if_neg (by simp), ← List.toFinset_inter, List.card_toFinset,
      List.card_toFinset]
    simp [clamp01]
  refine ⟨h1, h2, ?_⟩
  rw [h1, h2]
  norm_num

/-- C8, amended: `aspiration_fit` is `0.5` exactly on an empty aspiration
list; otherwise it is the number of distinct aspiration strings occurring
among the item's archetypes, divided by `max 1 (length of the aspiration
list, duplicates counted)`, clamped to `[0, 1]`. -/
theorem C8_amended :
    ∀ (u : UserProfile) (f : Fragrance),
      aspiration_fit u f =
        if u.aspiration = [] then 0.5
        else clamp01 ((((u.aspiration ∩ f.archetypes).dedup.length : ℕ) : ℚ) /
          ((max 1 u.aspiration.length : ℕ) : ℚ)) :=
  aspiration_fit_eq

/-- C9: the recorded total scores along the list returned by `recommend` are
non-increasing: diversity is the only picked-dependent sub-score and it only
shrinks, so each round's maximum cannot exceed the previous one. -/
theorem C9_scores_non_increasing :
    ∀ (u : UserProfile) (k : ℤ),
      List.Chain' (fun a b => b.score ≤ a.score) (recommend u k) :=
  fun u k => recommendAux_chain u k.toNat [] CATALOG

/-- C10, counterexample: the two copies are not literally equivalent — for a
profile whose best match is item "9" the recorded display names differ
("Acqua di GiÃ² Profondo" in `streamlit_app.py` versus
"Acqua di Giò Profondo" in `streamlit_app.py.py`). -/
theorem C10_counterexample : recommend u9 1 ≠ recommend_demo u9 1 := by
  have h1 : recommend u9 1 = [mkEntry item9 ⟨1, 1, 1, 1, 1, 1, 0.05, 0.9525⟩] := by
    rw [recommend, recommendOn, show (1 : ℤ).toNat = 0 + 1 from rfl,
      recommendAux_succ_some bestLoop_u9_app]
    rfl
  have h2 : recommend_demo u9 1 =
      [mkEntry item9d ⟨1, 1, 1, 1, 1, 1, 0.05, 0.9525⟩] := by
    rw [recommend_demo, recommendOn, show (1 : ℤ).toNat = 0 + 1 from rfl,
      recommendAux_succ_some bestLoop_u9_demo]
    rfl
  rw [h1, h2]
  intro hc
  have hname := congrArg (fun l => l.map RecEntry.name) hc
  exact absurd hname (by decide)

/-- C10, amended: the two copies agree everywhere except on that display
name: for every profile and every `k` the two result lists are identical
after erasing the recorded names (same identifiers, scores, breakdowns and
archetype lists, in the same order). -/
theorem C10_amended :
    ∀ (u : UserProfile) (k : ℤ),
      (recommend u k).map stripEntryName =
        (recommend_demo u k).map stripEntryName := by
  intro u k
  rw [recommend, recommend_demo, recommendOn, recommendOn]
  exact recommendAux_congr u k.toNat [] [] CATALOG CATALOG_demo rfl
    map_stripName_CATALOG CATALOG_strip_nodup (by simp) (by simp)

end FragranceRec
